import Mathlib

/-!
Verification development for the spreebreak_2024ws_bot repository
(`src/main.rs`, `src/model.rs`): a Telegram scavenger-hunt bot with a
SQLite store.  The data model mirrors `model.rs`; the operations are
shallow embeddings of the handlers in `main.rs`.  The chat transport is
abstracted as an oracle of per-call success flags; the SQLite store is
embedded as explicit lists of rows, with the semantics of each SQL
statement reproduced (including SQLite's aggregate-query and upsert
behaviour, which were checked against a real SQLite engine).
-/

namespace SpreeBreak

/-- Row of the `users` table (struct `User` in `model.rs`). -/
structure User where
  id : Int
  team : String
  username : Option String
  first_name : String
  last_name : Option String
deriving Repr, DecidableEq

/-- Row of the `submissions` table (struct `Submission` in `model.rs`). -/
structure Submission where
  message_id : Int
  team : String
  user : Int
  date : String
  caption : String
  type : Int
deriving Repr, DecidableEq

/-- Row of the `judgement` table (struct `Judgement` in `model.rs`);
`submission_id` is the table's unique key (`ON CONFLICT(submission_id)`). -/
structure Judgement where
  submission_id : Int
  challenge_name : String
  points : Int
  valid : Bool
deriving Repr, DecidableEq

/-- Row of the `forums` table (struct `Forum` in `model.rs` carries `id` and
`name`; the table additionally has the `open` column updated by
`update_teams_in_forum`).  The column is called `open` in SQL; that word is a
Lean keyword, so the field is named `openFlag`. -/
structure Forum where
  id : Int
  name : String
  openFlag : Bool
deriving Repr, DecidableEq

/-- Row of the `challenges` table (struct `Challenge` in `model.rs`). -/
structure Challenge where
  name : String
  short_name : String
deriving Repr, DecidableEq

/-- The SQLite database state: one list of rows per table used by the
claims. -/
structure Db where
  users : List User
  submissions : List Submission
  judgement : List Judgement
  forums : List Forum
  challenges : List Challenge
deriving Repr, DecidableEq

/-- Success flags for the chat-transport calls made by `judge` after the
upsert: the directive text message, the reaction clear, and the positive
reaction.  `true` means the call succeeds, `false` that it returns an error
(e.g. the original message was deleted). -/
structure Transport where
  send_message_ok : Bool
  clear_reaction_ok : Bool
  reaction_ok : Bool
deriving Repr, DecidableEq

/-- Transport oracle on which every call succeeds. -/
def transport_ok : Transport := { send_message_ok := true, clear_reaction_ok := true, reaction_ok := true }

/-- Points/validity computed at the top of `judge` (`main.rs` 1138-1143):
`points = 1, valid = true`, overridden to `0, false` when the challenge
argument is one of the sentinels. -/
def judge_outcome (challenge : String) : Int × Bool :=
  let points : Int := 1
  let valid : Bool := true
  if challenge == "___unclear" || challenge == "___invalid" then (0, false)
  else (points, valid)

/-- The judgement write of `judge` (`main.rs` 1145-1151):
`INSERT INTO judgement (submission_id, challenge_name, points, valid)
VALUES ($1,$2,$3,$4) ON CONFLICT(submission_id) DO UPDATE SET
challenge_name = excluded.challenge_name`.  On conflict only the
challenge name is replaced; the stored points and validity are kept
(verified against a real SQLite engine).  The source binds the submission
reference as a string; SQLite's numeric affinity coerces it back to the
integer key, so the key is `Int` here. -/
def judgement_upsert (rows : List Judgement) (submission_ref : Int) (challenge : String)
    (points : Int) (valid : Bool) : List Judgement :=
  if rows.any (fun j => j.submission_id == submission_ref) then
    rows.map (fun j =>
      if j.submission_id == submission_ref then { j with challenge_name := challenge } else j)
  else
    rows ++ [{ submission_id := submission_ref, challenge_name := challenge,
               points := points, valid := valid }]

/-- The `judge` routine (`main.rs` 1131-1187): computes the outcome, performs
the judgement upsert, then issues best-effort-looking feedback calls each of
which is awaited with `?`.  The returned `Bool` is `true` exactly when
`judge` returns `Ok` (a failing feedback call makes it return `Err`, because
of the `?` operators).  The database component of the result is the state
after the committed upsert, which is never rolled back.  The `associate`
argument is the submitter's user id (feedback target); parsing failures of
the id strings panic in the source and are not modelled. -/
def judge (t : Transport) (db : Db) (_associate : Int) (submission_ref : Int)
    (challenge : String) : Db × Bool :=
  let pv := judge_outcome challenge
  let db2 := { db with judgement := judgement_upsert db.judgement submission_ref challenge pv.1 pv.2 }
  if pv.2 == false then
    (db2, t.send_message_ok && t.clear_reaction_ok)
  else
    (db2, t.reaction_ok)

/-- Resolution of the submitter for `/judge` (`main.rs` 548-556):
`SELECT u.* FROM submissions s LEFT JOIN users u ON s.user = u.id WHERE
s.message_id = $1` with `fetch_optional`: `none` when no submission row has
the given message id.  (A submission row whose user is missing would make
the source fail on decoding the NULL columns; no claim depends on that path
and it is not modelled.) -/
def find_associate (db : Db) (submission_ref : Int) : Option User :=
  (db.submissions.find? (fun s => s.message_id == submission_ref)).bind
    (fun s => db.users.find? (fun u => u.id == s.user))

/-- Challenge resolution for `/judge` (`main.rs` 558-578): the two sentinels
are accepted directly without a catalog lookup; any other name is looked up
in the `challenges` table. -/
def resolve_challenge (db : Db) (challenge : String) : Option Challenge :=
  if challenge == "___unclear" then
    some { name := "___unclear", short_name := "Unclear" }
  else if challenge == "___invalid" then
    some { name := "___invalid", short_name := "Invalid" }
  else
    db.challenges.find? (fun c => c.name == challenge)

/-- Outcome reported by the `/judge` maintainer command. -/
inductive JudgeCmdOutcome where
  | judged (user : User) (challenge : Challenge)
  | challengeNotFound
  | submissionNotFound
deriving Repr, DecidableEq

/-- The `match (associate, challenge)` of the `/judge` command
(`main.rs` 579-600), with the source's arm order: `(Some, Some)` judges,
then `(_, None)` reports "Challenge not found", then `(None, _)` reports
"Submission not found". -/
def judge_command_outcome (db : Db) (submission_ref : Int) (challenge : String) :
    JudgeCmdOutcome :=
  match find_associate db submission_ref, resolve_challenge db challenge with
  | some u, some c => .judged u c
  | _, none => .challengeNotFound
  | none, _ => .submissionNotFound

/-- Team of a user: `SELECT team FROM users WHERE id = $1` as a scalar
subquery (`none` when the user has no row, in which case the SQL comparison
with NULL matches no row). -/
def user_team (db : Db) (user_id : Int) : Option String :=
  (db.users.find? (fun u => u.id == user_id)).map (fun u => u.team)

/-- Inner subquery of the remaining-challenges query (`main.rs` 321-335):
`SELECT challenge_name FROM judgement j LEFT JOIN submissions s ON
j.submission_id = s.message_id WHERE s.team = <team>`.  Note that the query
has no condition on `j.valid`. -/
def judged_names_for_team (db : Db) (team : String) : List String :=
  (db.judgement.filter (fun j =>
    db.submissions.any (fun s => j.submission_id == s.message_id && s.team == team))).map
    (fun j => j.challenge_name)

/-- The remaining-challenges query of `receive_submission` (`main.rs`
321-335): catalog challenges whose name is NOT IN the judged names of the
submitter's team.  When the scalar subquery for the team yields NULL the
inner query matches no row and every challenge remains. -/
def remaining_challenges (db : Db) (user_id : Int) : List Challenge :=
  match user_team db user_id with
  | some team => db.challenges.filter (fun c => !((judged_names_for_team db team).contains c.name))
  | none => db.challenges

/-- Outcome of `receive_submission` visible to the claims. -/
inductive SubmitOutcome where
  | disabled
  | notRegistered
  | submitted (prompt : List Challenge)
deriving Repr, DecidableEq

/-- Result of `receive_submission`: the database after the handler, the
number of media downloads performed, and the outcome (for `submitted`, the
challenge list attached to the selection prompt). -/
structure SubmitResult where
  db : Db
  media_downloads : Nat
  outcome : SubmitOutcome
deriving Repr, DecidableEq

/-- The submission pipeline `receive_submission` (`main.rs` 213-352) on its
data path: the submissions-enabled flag is checked first; then the team
membership (`SELECT * FROM users WHERE id = $1 LIMIT 1`); then the media is
downloaded and the submission row inserted with the team frozen from the
user's current row (`INSERT INTO submissions ... SELECT $1, team, ... FROM
users WHERE id = $4`); finally the challenge-selection prompt is built from
the remaining-challenges query bound to the submitter.  The forwarded-copy
routing and message sends are transport effects not needed by the claims. -/
def receive_submission (submissions_enabled : Bool) (db : Db) (user_id msg_id : Int)
    (caption : String) (media_type : Int) (now : String) : SubmitResult :=
  if !submissions_enabled then
    { db := db, media_downloads := 0, outcome := .disabled }
  else
    match db.users.find? (fun u => u.id == user_id) with
    | none => { db := db, media_downloads := 0, outcome := .notRegistered }
    | some u =>
      let sub : Submission :=
        { message_id := msg_id, team := u.team, user := user_id,
          date := now, caption := caption, type := media_type }
      let db2 := { db with submissions := db.submissions ++ [sub] }
      { db := db2, media_downloads := 1,
        outcome := .submitted (remaining_challenges db2 user_id) }

/-- SQL LEFT JOIN: every row of `xs` paired with each row of `ys` satisfying
the join condition, or with `none` when no row of `ys` matches. -/
def left_join {α β : Type} (xs : List α) (ys : List β) (cond : α → β → Bool) :
    List (α × Option β) :=
  xs.flatMap (fun x =>
    match ys.filter (cond x) with
    | [] => [(x, none)]
    | m :: ms => (m :: ms).map (fun y => (x, some y)))

/-- Rows of `judgement j LEFT JOIN submissions s ON j.submission_id =
s.message_id`, shared by the Scoreboard and Score queries. -/
def js_rows (db : Db) : List (Judgement × Option Submission) :=
  left_join db.judgement db.submissions (fun j s => j.submission_id == s.message_id)

/-- Rows after the further `LEFT JOIN users u ON s.team = u.team` (a NULL
`s.team` matches no user). -/
def jsu_rows (db : Db) : List ((Judgement × Option Submission) × Option User) :=
  left_join (js_rows db) db.users
    (fun r u => match r.2 with
      | some s => s.team == u.team
      | none => false)

/-- Rows kept by `WHERE j.valid = 1` in the Scoreboard query. -/
def scoreboard_rows (db : Db) : List ((Judgement × Option Submission) × Option User) :=
  (jsu_rows db).filter (fun r => r.1.1.valid)

/-- The Scoreboard query (`main.rs` 397-404): `SELECT s.team, SUM(j.points)
FROM judgement j LEFT JOIN submissions s ON j.submission_id = s.message_id
LEFT JOIN users u ON s.team = u.team WHERE j.valid = 1 GROUP BY s.team`.
Groups are keyed by the frozen `s.team` of the joined submission (NULL when
the judgement has no submission); each group sums `j.points` over its joined
rows, so a judgement contributes once per user whose live team name equals
the frozen name (once when there is none).  The `ORDER BY score DESC`
presentation of the groups is not modelled; no claim depends on the order. -/
def scoreboard (db : Db) : List (Option String × Int) :=
  ((scoreboard_rows db).map (fun r => r.1.2.map (fun s => s.team))).dedup.map
    (fun k => (k,
      ((scoreboard_rows db).filter (fun r => (r.1.2.map (fun s => s.team)) == k)).foldl
        (fun acc r => acc + r.1.1.points) 0))

/-- The per-challenge rows of the participant `/score` command (`main.rs`
954-963): `SELECT j.challenge_name, j.points FROM judgement j LEFT JOIN
submissions s ON j.submission_id = s.message_id LEFT JOIN users u ON s.team
= u.team WHERE u.id = $1 AND j.valid = 1`.  `u.id = $1` keeps exactly the
rows whose submission's frozen team name equals the live team name of the
queried user. -/
def participant_score_rows (db : Db) (user_id : Int) : List (String × Int) :=
  ((jsu_rows db).filter (fun r =>
    (match r.2 with
      | some u => u.id == user_id
      | none => false) && r.1.1.valid)).map
    (fun r => (r.1.1.challenge_name, r.1.1.points))

/-- Per-entry effect of the close pass of `update_teams_in_forum`
(`main.rs` 185-202): `UPDATE forums SET open = false WHERE id = $1` for each
collected id. -/
def close_map (close_ids : List Int) (f : Forum) : Forum :=
  if close_ids.contains f.id then { f with openFlag := false } else f

/-- The `forums_to_create` set of `update_teams_in_forum` (`main.rs`
148-157): fetched teams with no forums entry of any state — the name filter
is against `SELECT DISTINCT id, name FROM forums`, with no condition on the
`open` column, so closed entries count as present.  `create_ok` models the
success of the external `create_forum_topic` call: a failure skips that
team's insert without aborting the others (the per-item futures discard
errors). -/
def forums_to_create (forums : List Forum) (teams_set : List String)
    (create_ok : String → Bool) : List String :=
  (teams_set.filter (fun t => !((forums.map (fun f => f.name)).dedup.contains t))).filter
    create_ok

/-- Ids collected by the close pass of `update_teams_in_forum` (`main.rs`
158-161, 185-202): every entry whose name is not a fetched team, when the
external `close_forum_topic` call succeeds (`close_ok`). -/
def close_ids (forums : List Forum) (teams_set : List String)
    (close_ok : Int → Bool) : List Int :=
  ((forums.filter (fun f => !teams_set.contains f.name)).filter
    (fun f => close_ok f.id)).map (fun f => f.id)

/-- The diff-and-mutate pass of `update_teams_in_forum` (`main.rs` 131-205)
on fetched data.  `teams` is the list of team rows returned by the roster
query (collected into a `HashSet`, modelled by `dedup`).  Creations insert
an open entry with the allocated handle for each team in
`forums_to_create`; the close pass then flips the `open` flag of the
collected ids (creations run before closes in the source, so the flag
update ranges over the appended list). -/
def forum_reconcile (forums : List Forum) (teams : List String) (alloc : String → Int)
    (create_ok : String → Bool) (close_ok : Int → Bool) : List Forum :=
  let teams_set := teams.dedup
  (forums ++ (forums_to_create forums teams_set create_ok).map
      (fun t => { id := alloc t, name := t, openFlag := true : Forum })).map
    (close_map (close_ids forums teams_set close_ok))

/-- One run of `update_teams_in_forum` (`main.rs` 131-205).  The roster
query `SELECT DISTINCT team, COUNT(*) AS count FROM users` is an aggregate
query without GROUP BY: it returns a single row whose `team` is a bare
column taken from an arbitrary users row (verified against a real SQLite
engine), so the fetched team set is the singleton `[roster_team]` — a live
team name chosen by the engine when `users` is non-empty (on an empty
roster the source panics decoding the NULL aggregate row; not modelled). -/
def update_teams_in_forum (db : Db) (roster_team : String) (alloc : String → Int)
    (create_ok : String → Bool) (close_ok : Int → Bool) : Db :=
  { db with forums := forum_reconcile db.forums [roster_team] alloc create_ok close_ok }

/-- Parameters of one serialized `Reconcile` run: the team row the roster
query returned at that moment, the external channel allocator, and the
success oracles of the external create/close calls. -/
structure ReconcileEnv where
  roster_team : String
  alloc : String → Int
  create_ok : String → Bool
  close_ok : Int → Bool

/-- A sequence of `Reconcile` runs, serialized by the process-wide lock. -/
def reconcile_seq (db : Db) (envs : List ReconcileEnv) : Db :=
  envs.foldl (fun d e => update_teams_in_forum d e.roster_team e.alloc e.create_ok e.close_ok) db

/-- Number of open Channel Topology Entries recorded for a team name. -/
def open_count (forums : List Forum) (team : String) : Nat :=
  forums.countP (fun f => f.name == team && f.openFlag)

/-- Topology uniqueness invariant: at most one open entry per team name. -/
def TopologyInv (db : Db) : Prop :=
  ∀ team, open_count db.forums team ≤ 1

/-- Splitting a character list on every occurrence of the `###` marker,
left to right and non-overlapping: the semantics of the Rust
`raw_choice.split("###")` used by `callback_handler` (`main.rs` 1087). -/
def split_hashes (acc : List Char) : List Char → List (List Char)
  | '#' :: '#' :: '#' :: rest => acc.reverse :: split_hashes [] rest
  | c :: rest => split_hashes (c :: acc) rest
  | [] => [acc.reverse]

/-- The parts of a callback payload, as produced by `split("###")`. -/
def callback_parts (raw : String) : List String :=
  (split_hashes [] raw.data).map (fun cs => String.mk cs)

/-- Value of a decimal digit character, `none` otherwise. -/
def dec_digit (c : Char) : Option Nat :=
  if '0' ≤ c ∧ c ≤ '9' then some (c.toNat - '0'.toNat) else none

/-- Accumulating decimal reading of a character list; `none` when a
non-digit occurs or no digit was read. -/
def nat_of_digits (acc : Option Nat) : List Char → Option Nat
  | [] => acc
  | c :: rest =>
    match dec_digit c, acc with
    | some d, some n => nat_of_digits (some (10 * n + d)) rest
    | some d, none => nat_of_digits (some d) rest
    | none, _ => none

/-- Integer value of a decimal string literal.  This models SQLite's
numeric affinity coercing the string-typed bind of the submission reference
into the INTEGER key column, and the `parse::<u64>()` of the id strings in
`judge` (whose failure panics in the source; here `none`). -/
def parse_int_lit (s : String) : Option Int :=
  match s.data with
  | '-' :: rest => (nat_of_digits none rest).map (fun n => -(n : Int))
  | cs => (nat_of_digits none cs).map (fun n => (n : Int))

/-- The callback-query judging path (`main.rs` 1081-1129): the payload is
split on `###` into `(associate, image_ref, choice)` — the source asserts
exactly three parts, so any other shape panics (`none` here) — and `choice`
is handed to `judge` directly, with no catalog lookup of any kind.  The id
strings are coerced as in `judge`/SQLite (`none` on non-numeric ids, where
the source would panic).  The answer-callback and message-edit transport
calls around the judging are not needed by any claim and are not modelled;
the result carries `judge`'s database state and success flag. -/
def callback_handler (db : Db) (t : Transport) (raw_choice : String) : Option (Db × Bool) :=
  match callback_parts raw_choice with
  | [associate, image_ref, choice] =>
    match parse_int_lit associate, parse_int_lit image_ref with
    | some a, some r => some (judge t db a r choice)
    | _, _ => none
  | _ => none

/-! Concrete states used to evaluate the operations on explicit inputs. -/

/-- State with one judged-pending submission (id 7) of user 7777 on team
`T`, and a one-challenge catalog. -/
def c1_db0 : Db :=
  { users := [{ id := 7777, team := "T", username := none, first_name := "A", last_name := none }],
    submissions := [{ message_id := 7, team := "T", user := 7777, date := "d", caption := "", type := 0 }],
    judgement := [], forums := [], challenges := [{ name := "c1", short_name := "C1" }] }

/-- Transport on which the positive-reaction call fails (e.g. the
submitter deleted the original message). -/
def t_react_fail : Transport :=
  { send_message_ok := true, clear_reaction_ok := true, reaction_ok := false }

/-- State with one submission (id 1) of user 5 on team `T`. -/
def c2_db0 : Db :=
  { users := [{ id := 5, team := "T", username := none, first_name := "A", last_name := none }],
    submissions := [{ message_id := 1, team := "T", user := 5, date := "d", caption := "", type := 0 }],
    judgement := [], forums := [], challenges := [{ name := "c", short_name := "C" }] }

/-- State with one submission (id 10) of user 1 on team `T` and catalog
challenge `c`. -/
def c3_db0 : Db :=
  { users := [{ id := 1, team := "T", username := none, first_name := "F", last_name := none }],
    submissions := [{ message_id := 10, team := "T", user := 1, date := "d", caption := "cap", type := 0 }],
    judgement := [], forums := [], challenges := [{ name := "c", short_name := "C" }] }

/-- `c3_db0` after judging submission 10 as `___invalid` and then
re-judging it with catalog challenge `c` (two `judge` calls). -/
def c3_db1 : Db :=
  (judge transport_ok (judge transport_ok c3_db0 1 10 "___invalid").1 1 10 "c").1

/-- State after participant 1 moved from team `A` to team `B`: their live
row says `B`, while their judged submission 10 keeps the frozen team `A`. -/
def c4_db : Db :=
  { users := [{ id := 1, team := "B", username := none, first_name := "F", last_name := none }],
    submissions := [{ message_id := 10, team := "A", user := 1, date := "d", caption := "cap", type := 0 }],
    judgement := [{ submission_id := 10, challenge_name := "c", points := 1, valid := true }],
    forums := [], challenges := [] }

/-- Parametric team-rebind state: user `uid` lives on team `newT`, their
judged (valid, `pts`-point) submission `sid` keeps the frozen team `oldT`. -/
def rebind_db (uid sid pts : Int) (oldT newT cname : String) : Db :=
  { users := [{ id := uid, team := newT, username := none, first_name := "F", last_name := none }],
    submissions := [{ message_id := sid, team := oldT, user := uid, date := "d", caption := "", type := 0 }],
    judgement := [{ submission_id := sid, challenge_name := cname, points := pts, valid := true }],
    forums := [], challenges := [] }

/-- State where team `T` is live (user 1) but its only Channel Topology
Entry (external handle 5) is flagged closed. -/
def c5_db : Db :=
  { users := [{ id := 1, team := "T", username := none, first_name := "A", last_name := none }],
    submissions := [], judgement := [],
    forums := [{ id := 5, name := "T", openFlag := false }], challenges := [] }

/-- State where team `U` is live (user 2) and the forums table is empty. -/
def c5_db_empty : Db :=
  { users := [{ id := 2, team := "U", username := none, first_name := "B", last_name := none }],
    submissions := [], judgement := [], forums := [], challenges := [] }

/-- State with no submissions and a one-challenge catalog (`real`), so that
both the submission and an unknown challenge fail to resolve. -/
def c6_db : Db :=
  { users := [], submissions := [], judgement := [], forums := [],
    challenges := [{ name := "real", short_name := "R" }] }

/-- Empty state used to exercise fresh judgement inserts. -/
def c9_dbw : Db :=
  { users := [], submissions := [], judgement := [], forums := [], challenges := [] }

/-- State with one submission (id 5) of user 1 on team `T` and an EMPTY
challenge catalog. -/
def c10_db : Db :=
  { users := [{ id := 1, team := "T", username := none, first_name := "F", last_name := none }],
    submissions := [{ message_id := 5, team := "T", user := 1, date := "d", caption := "", type := 0 }],
    judgement := [], forums := [], challenges := [] }

/-- Transport on which every feedback call fails. -/
def t_all_fail : Transport :=
  { send_message_ok := false, clear_reaction_ok := false, reaction_ok := false }

/-- State with a single open entry for team `T`, used to instantiate the
topology invariant. -/
def c8_db0 : Db :=
  { users := [{ id := 1, team := "T", username := none, first_name := "A", last_name := none }],
    submissions := [], judgement := [],
    forums := [{ id := 1, name := "T", openFlag := true }], challenges := [] }

/-- A concrete reconcile run: the roster query picked team `U`, the
allocator hands out handle 9, every external call succeeds. -/
def c8_env0 : ReconcileEnv :=
  { roster_team := "U", alloc := fun _ => 9,
    create_ok := fun _ => true, close_ok := fun _ => true }

/-! Theorems. -/

/-- Database component of a `judge` call: the committed upsert, whatever
the feedback branch does. -/
theorem judge_fst (t : Transport) (db : Db) (a ref : Int) (c : String) :
    (judge t db a ref c).1
      = { db with judgement :=
            judgement_upsert db.judgement ref c (judge_outcome c).1 (judge_outcome c).2 } := by
  simp only [judge]
  split <;> rfl

/-- C7: with the submissions-enabled flag false, `receive_submission`
returns the disabled outcome and performs no other action: the database is
unchanged (no Submission row is written), no media is downloaded, and the
outcome is the same whatever the roster contains (the team-membership check
is never reached). -/
theorem c7_disabled_gate (db : Db) (user_id msg_id : Int) (caption : String)
    (media_type : Int) (now : String) :
    receive_submission false db user_id msg_id caption media_type now
      = { db := db, media_downloads := 0, outcome := .disabled } := rfl

/-- C1 (failing-input evaluation): judging submission 7 with catalog
challenge `c1` and then re-judging it as `___invalid` leaves the row
`(7, ___invalid, 1, true)` — the repeat call overwrites only the stored
challenge name, keeping the first call's points and validity, where the
claim (and the source's own "Overwrite with /judge" message) require
`(7, ___invalid, 0, false)`. -/
theorem c1_failing_eval :
    (judge transport_ok (judge transport_ok c1_db0 7777 7 "c1").1 7777 7 "___invalid").1.judgement
      = [{ submission_id := 7, challenge_name := "___invalid", points := 1, valid := true }] := by
  decide

/-- C9: on a submission id with no prior judgement row, a `judge` call
stores the computed outcome fields: points 0 and valid false when the
challenge argument is a sentinel, points 1 and valid true for any other
challenge name. -/
theorem c9_outcome_mapping (t : Transport) (db : Db) (a ref : Int) (c : String)
    (hfresh : ∀ j ∈ db.judgement, j.submission_id ≠ ref) :
    ((c = "___unclear" ∨ c = "___invalid") →
      (judge t db a ref c).1.judgement
        = db.judgement ++ [{ submission_id := ref, challenge_name := c, points := 0, valid := false }])
    ∧ (c ≠ "___unclear" → c ≠ "___invalid" →
      (judge t db a ref c).1.judgement
        = db.judgement ++ [{ submission_id := ref, challenge_name := c, points := 1, valid := true }]) := by
  have hany : db.judgement.any (fun j => j.submission_id == ref) = false := by
    simp only [List.any_eq_false, beq_iff_eq]
    exact hfresh
  constructor
  · intro hc
    rw [judge_fst]
    rcases hc with h | h <;> subst h <;>
      simp [judge_outcome, judgement_upsert, hany]
  · intro h1 h2
    rw [judge_fst]
    have hc : (c == "___unclear" || c == "___invalid") = false := by
      simp [h1, h2]
    simp [judge_outcome, judgement_upsert, hany, hc]

/-- C9 witness: the mapping evaluated on a sentinel and on a plain
challenge name over the empty ledger. -/
theorem c9_witness :
    ((judge transport_ok c9_dbw 5 1 "___unclear").1.judgement
        = c9_dbw.judgement
          ++ [{ submission_id := 1, challenge_name := "___unclear", points := 0, valid := false }])
    ∧ ((judge transport_ok c9_dbw 5 2 "photo_hunt").1.judgement
        = c9_dbw.judgement
          ++ [{ submission_id := 2, challenge_name := "photo_hunt", points := 1, valid := true }]) :=
  ⟨(c9_outcome_mapping transport_ok c9_dbw 5 1 "___unclear" (by decide)).1 (Or.inl rfl),
   (c9_outcome_mapping transport_ok c9_dbw 5 2 "photo_hunt" (by decide)).2 (by decide) (by decide)⟩

/-- C2 counterexample: with the positive-reaction call failing, a `judge`
call on a fresh submission returns an error (`false`), not success, even
though the judgement upsert has committed — the feedback failure is
propagated through the `?` operators, contradicting the claim that it is
swallowed. -/
theorem c2_counterexample :
    (judge t_react_fail c2_db0 5 1 "c").2 = false
    ∧ (judge t_react_fail c2_db0 5 1 "c").1.judgement
        = [{ submission_id := 1, challenge_name := "c", points := 1, valid := true }] := by
  decide

/-- C2 (amended): the judgement upsert is committed and never rolled back —
the resulting database state is identical for every transport outcome — but
a failure of the post-write feedback step is propagated to the caller:
whenever the feedback calls fail, `judge` returns an error instead of
success. -/
theorem c2_feedback_error_propagates :
    (∀ t t' : Transport, ∀ (db : Db) (a ref : Int) (c : String),
        (judge t db a ref c).1 = (judge t' db a ref c).1)
    ∧ (∀ (t : Transport) (db : Db) (a ref : Int) (c : String),
        t.send_message_ok = false → t.reaction_ok = false →
        (judge t db a ref c).2 = false) := by
  constructor
  · intro t t' db a ref c
    rw [judge_fst, judge_fst]
  · intro t db a ref c hs hr
    simp only [judge]
    split
    · simp [hs]
    · simpa using hr

/-- C2 witness: the amended statement evaluated at a concrete state, with
an all-failing and an all-succeeding transport. -/
theorem c2_witness :
    (judge t_all_fail c2_db0 5 1 "c").2 = false
    ∧ (judge t_all_fail c2_db0 5 1 "c").1 = (judge transport_ok c2_db0 5 1 "c").1 :=
  ⟨c2_feedback_error_propagates.2 t_all_fail c2_db0 5 1 "c" rfl rfl,
   c2_feedback_error_propagates.1 t_all_fail transport_ok c2_db0 5 1 "c"⟩

/-- C6 counterexample: with neither the submission (id 1; no submissions
exist) nor the challenge (`x`; not in the catalog) resolving, the `/judge`
command reports ChallengeNotFound — not SubmissionNotFound as the claim
requires. -/
theorem c6_counterexample :
    find_associate c6_db 1 = none
    ∧ resolve_challenge c6_db ("x") = none
    ∧ judge_command_outcome c6_db 1 "x" = .challengeNotFound
    ∧ judge_command_outcome c6_db 1 "x" ≠ .submissionNotFound := by
  decide

/-- C6 (amended): whenever the challenge fails to resolve — including the
`(None, None)` conjunction — the reported outcome is ChallengeNotFound;
SubmissionNotFound is reported exactly when the submission lookup fails
while the challenge does resolve. -/
theorem c6_precedence (db : Db) (ref : Int) (c : String) :
    (resolve_challenge db c = none → judge_command_outcome db ref c = .challengeNotFound)
    ∧ (judge_command_outcome db ref c = .submissionNotFound ↔
        find_associate db ref = none ∧ ∃ ch, resolve_challenge db c = some ch) := by
  cases h1 : find_associate db ref <;> cases h2 : resolve_challenge db c <;>
    simp [judge_command_outcome, h1, h2]

/-- C6 witness: the amended precedence evaluated on concrete lookups — an
unknown challenge yields ChallengeNotFound even with no submission, and a
known challenge with no submission yields SubmissionNotFound. -/
theorem c6_witness :
    judge_command_outcome c6_db 1 "x" = .challengeNotFound
    ∧ judge_command_outcome c6_db 1 "real" = .submissionNotFound :=
  ⟨(c6_precedence c6_db 1 "x").1 (by decide),
   ((c6_precedence c6_db 1 "real").2).mpr
     ⟨by decide, ⟨{ name := "real", short_name := "R" }, by decide⟩⟩⟩

/-- C10 (failing-input evaluation): on the callback path the chosen string
is judged with no catalog lookup (the catalog here is empty), so the first
callback stores `(5, ___invalid, 0, false)`; but the second callback with
the non-sentinel, non-catalog string `mystery_challenge` leaves
`(5, mystery_challenge, 0, false)` — the conflict update keeps the stored
points and validity, where the claim requires points 1 and valid true. -/
theorem c10_failing_eval :
    ((callback_handler c10_db transport_ok ("1###5###___invalid")).map (fun r => r.1.judgement)
        = some [{ submission_id := 5, challenge_name := "___invalid", points := 0, valid := false }])
    ∧ (((callback_handler c10_db transport_ok ("1###5###___invalid")).bind
          (fun r => callback_handler r.1 transport_ok ("1###5###mystery_challenge"))).map
            (fun r => r.1.judgement)
        = some [{ submission_id := 5, challenge_name := "mystery_challenge",
                  points := 0, valid := false }]) := by
  decide

/-- C3 counterexample: after judging submission 10 as `___invalid` and
re-judging it with catalog challenge `c`, the team's only judgement row for
`c` is `(10, c, 0, false)` — marked not valid — yet a new submission by the
team member is prompted with an empty challenge list: `c` is not listed,
although the claim requires a challenge whose only judgements have
`valid = false` to still be listed. -/
theorem c3_counterexample :
    c3_db1.judgement = [{ submission_id := 10, challenge_name := "c", points := 0, valid := false }]
    ∧ (receive_submission true c3_db1 1 11 "x" 0 "d2").outcome = .submitted [] := by
  decide

/-- C4 counterexample: participant 1 moved to team `B` while their judged,
valid, 1-point submission keeps the frozen team `A`; the Scoreboard still
attributes the point to `A` and shows nothing for `B`, and the
participant's Score rows are empty — the aggregation follows the frozen
Submission team name, not the live binding the claim requires. -/
theorem c4_counterexample :
    scoreboard c4_db = [(some ("A"), 1)]
    ∧ (some ("B"), (1 : Int)) ∉ scoreboard c4_db
    ∧ participant_score_rows c4_db 1 = [] := by
  decide

/-- C5 counterexample: team `T` is live (and, being the only team, is
necessarily the row the roster query returns) and has no open Channel
Topology Entry — its only entry is flagged closed — yet a reconcile run
allocates nothing and inserts nothing: the forums table is unchanged and
still holds no open entry for `T`, contradicting the claim. -/
theorem c5_counterexample :
    (update_teams_in_forum c5_db ("T") (fun _ => 99) (fun _ => true) (fun _ => true)).forums
        = [{ id := 5, name := "T", openFlag := false }]
    ∧ ∀ f ∈ (update_teams_in_forum c5_db ("T") (fun _ => 99) (fun _ => true) (fun _ => true)).forums,
        ¬(f.name = "T" ∧ f.openFlag = true) := by
  decide

/-- Closing entries never changes an entry's name. -/
theorem close_map_name (ids : List Int) (f : Forum) : (close_map ids f).name = f.name := by
  unfold close_map
  split <;> rfl

/-- Closing entries never opens one. -/
theorem close_map_open (ids : List Int) (f : Forum)
    (h : (close_map ids f).openFlag = true) : f.openFlag = true := by
  unfold close_map at h
  split at h
  · simp at h
  · exact h

/-- The close pass preserves how many entries carry a given name. -/
theorem countP_name_close (ids : List Int) (l : List Forum) (t : String) :
    List.countP (fun f => f.name == t) (l.map (close_map ids))
      = List.countP (fun f => f.name == t) l := by
  rw [List.countP_map]
  apply List.countP_congr
  intro f _
  simp [Function.comp, close_map_name]

/-- Created entries carry exactly the names of the created teams. -/
theorem countP_created_name (alloc : String → Int) (tc : List String) (t : String) :
    List.countP (fun f => f.name == t)
        (tc.map (fun s => { id := alloc s, name := s, openFlag := true : Forum }))
      = List.countP (fun s => s == t) tc := by
  rw [List.countP_map]
  rfl

/-- A team in `forums_to_create` has no forums entry of any state, is a
fetched team, and passed the external-create success filter. -/
theorem mem_forums_to_create (forums : List Forum) (ts : List String)
    (create_ok : String → Bool) (s : String)
    (h : s ∈ forums_to_create forums ts create_ok) :
    (∀ f ∈ forums, f.name ≠ s) ∧ s ∈ ts ∧ create_ok s = true := by
  unfold forums_to_create at h
  rw [List.mem_filter] at h
  obtain ⟨h1, hok⟩ := h
  rw [List.mem_filter] at h1
  obtain ⟨hmem, hcon⟩ := h1
  refine ⟨?_, hmem, hok⟩
  intro f hf hname
  have hin : s ∈ (forums.map (fun f => f.name)).dedup :=
    List.mem_dedup.mpr (List.mem_map.mpr ⟨f, hf, hname⟩)
  simp [hin] at hcon

/-- Conversely, a fetched team with no forums entry and a successful
external create is in `forums_to_create`. -/
theorem mem_forums_to_create_intro (forums : List Forum) (ts : List String)
    (create_ok : String → Bool) (s : String) (hmem : s ∈ ts)
    (hno : ∀ f ∈ forums, f.name ≠ s) (hok : create_ok s = true) :
    s ∈ forums_to_create forums ts create_ok := by
  unfold forums_to_create
  rw [List.mem_filter]
  refine ⟨?_, hok⟩
  rw [List.mem_filter]
  refine ⟨hmem, ?_⟩
  have hnotin : s ∉ (forums.map (fun f => f.name)).dedup := by
    rw [List.mem_dedup]
    intro hc
    rw [List.mem_map] at hc
    obtain ⟨f, hf, hfs⟩ := hc
    exact hno f hf hfs
  simp [hnotin]

/-- One reconcile pass keeps the number of open entries of any single team
name at most one: it inserts only for names with no entry at all, at most
once per name, and the close pass only flips flags to closed. -/
theorem open_count_forum_reconcile (forums : List Forum) (teams : List String)
    (alloc : String → Int) (create_ok : String → Bool) (close_ok : Int → Bool)
    (t : String) (h : open_count forums t ≤ 1) :
    open_count (forum_reconcile forums teams alloc create_ok close_ok) t ≤ 1 := by
  simp only [open_count, forum_reconcile] at h ⊢
  rw [List.countP_map, List.countP_append]
  set ids := close_ids forums teams.dedup close_ok with hids
  set tc := forums_to_create forums teams.dedup create_ok with htc
  have hF : List.countP ((fun f => f.name == t && f.openFlag) ∘ close_map ids) forums
      ≤ List.countP (fun f => f.name == t && f.openFlag) forums := by
    apply List.countP_mono_left
    intro f _ hpf
    simp only [Function.comp, Bool.and_eq_true] at hpf
    obtain ⟨hn, ho⟩ := hpf
    rw [close_map_name] at hn
    rw [Bool.and_eq_true]
    exact ⟨hn, close_map_open ids f ho⟩
  have hC : List.countP ((fun f => f.name == t && f.openFlag) ∘ close_map ids)
      (tc.map (fun s => { id := alloc s, name := s, openFlag := true : Forum }))
      ≤ List.countP (fun s => s == t) tc := by
    rw [List.countP_map]
    apply List.countP_mono_left
    intro s _ hps
    simp only [Function.comp, Bool.and_eq_true] at hps
    obtain ⟨hn, _⟩ := hps
    rw [close_map_name] at hn
    exact hn
  by_cases hzero : List.countP (fun s => s == t) tc = 0
  · omega
  · have hpos : 0 < List.countP (fun s => s == t) tc := Nat.pos_of_ne_zero hzero
    rw [List.countP_pos_iff] at hpos
    obtain ⟨s, hsmem, hst⟩ := hpos
    have hseq : s = t := by simpa using hst
    subst hseq
    obtain ⟨hnone, _, _⟩ := mem_forums_to_create forums teams.dedup create_ok s (htc ▸ hsmem)
    have hzeroF : List.countP (fun f => f.name == s && f.openFlag) forums = 0 := by
      rw [List.countP_eq_zero]
      intro f hf hP
      rw [Bool.and_eq_true] at hP
      exact hnone f hf (by simpa using hP.1)
    have hone : List.countP (fun x => x == s) tc ≤ 1 := by
      have hnd : tc.Nodup := by
        rw [htc]
        unfold forums_to_create
        exact ((List.nodup_dedup teams).filter _).filter _
      rw [← List.count_eq_countP]
      exact List.nodup_iff_count_le_one.mp hnd s
    omega

/-- C8: after any sequence of reconcile runs (serialized by the topology
lock) starting from a state satisfying the invariant, at most one open
Channel Topology Entry exists per team name: a run only inserts entries for
team names that have no entry at all — in particular never a second one for
a name that already has one — and otherwise only flips flags to closed. -/
theorem c8_topology_unique (db : Db) (envs : List ReconcileEnv) (h : TopologyInv db) :
    TopologyInv (reconcile_seq db envs) := by
  induction envs generalizing db with
  | nil => exact h
  | cons e rest ih =>
    have hstep : TopologyInv
        (update_teams_in_forum db e.roster_team e.alloc e.create_ok e.close_ok) := by
      intro t
      exact open_count_forum_reconcile db.forums [e.roster_team] e.alloc e.create_ok
        e.close_ok t (h t)
    exact ih _ hstep

/-- C8 witness: the invariant holds after a concrete run over a state with
one open entry. -/
theorem c8_witness : TopologyInv (reconcile_seq c8_db0 [c8_env0]) :=
  c8_topology_unique c8_db0 [c8_env0] (fun _t => List.countP_le_length _)

/-- C5 (amended): a reconcile run inserts an open entry with a freshly
allocated handle for the roster-picked team only when that team has no
Channel Topology Entry of either state; when any entry for the team already
exists — in particular when its only entries are flagged closed — the run
inserts nothing for it (the entry count for that name is unchanged). -/
theorem c5_create_requires_no_entry (db : Db) (rt : String) (alloc : String → Int)
    (create_ok : String → Bool) (close_ok : Int → Bool) :
    ((∃ f ∈ db.forums, f.name = rt) →
      (update_teams_in_forum db rt alloc create_ok close_ok).forums.countP
          (fun f => f.name == rt)
        = db.forums.countP (fun f => f.name == rt))
    ∧ ((∀ f ∈ db.forums, f.name ≠ rt) → create_ok rt = true →
        (∀ f ∈ db.forums, f.id ≠ alloc rt) →
        ∃ f ∈ (update_teams_in_forum db rt alloc create_ok close_ok).forums,
          f.name = rt ∧ f.openFlag = true) := by
  constructor
  · rintro ⟨f0, hf0, hname⟩
    simp only [update_teams_in_forum, forum_reconcile]
    rw [countP_name_close, List.countP_append, countP_created_name]
    have hzero : List.countP (fun s => s == rt)
        (forums_to_create db.forums ([rt].dedup) create_ok) = 0 := by
      rw [List.countP_eq_zero]
      intro s hs hseq
      have hseq' : s = rt := by simpa using hseq
      obtain ⟨hnone, _, _⟩ := mem_forums_to_create db.forums ([rt].dedup) create_ok s hs
      exact hnone f0 hf0 (hname.trans hseq'.symm)
    omega
  · intro hno hok hfresh
    simp only [update_teams_in_forum, forum_reconcile]
    have hmem : rt ∈ forums_to_create db.forums ([rt].dedup) create_ok :=
      mem_forums_to_create_intro db.forums ([rt].dedup) create_ok rt
        (List.mem_dedup.mpr (by simp)) hno hok
    refine ⟨close_map (close_ids db.forums ([rt].dedup) close_ok)
        { id := alloc rt, name := rt, openFlag := true }, ?_, ?_⟩
    · exact List.mem_map_of_mem _ (List.mem_append_right _ (List.mem_map_of_mem _ hmem))
    · have hnotin : alloc rt ∉ close_ids db.forums ([rt].dedup) close_ok := by
        unfold close_ids
        intro hc
        rw [List.mem_map] at hc
        obtain ⟨f, hf, hid⟩ := hc
        rw [List.mem_filter] at hf
        obtain ⟨hf1, _⟩ := hf
        rw [List.mem_filter] at hf1
        exact hfresh f hf1.1 hid
      have hnotin' : alloc rt ∉ close_ids db.forums [rt] close_ok := by
        simpa using hnotin
      simp [close_map, hnotin']

/-- C5 witness: the amended statement evaluated on a team with a closed
entry (count unchanged, nothing inserted) and on a team with no entry at
all (an open entry is inserted). -/
theorem c5_witness :
    ((update_teams_in_forum c5_db ("T") (fun _ => 99) (fun _ => true) (fun _ => true)).forums.countP
        (fun f => f.name == "T")
      = c5_db.forums.countP (fun f => f.name == "T"))
    ∧ ∃ f ∈ (update_teams_in_forum c5_db_empty ("U") (fun _ => 9) (fun _ => true)
        (fun _ => true)).forums, f.name = "U" ∧ f.openFlag = true :=
  ⟨(c5_create_requires_no_entry c5_db ("T") (fun _ => 99) (fun _ => true) (fun _ => true)).1
      ⟨{ id := 5, name := "T", openFlag := false }, by decide, rfl⟩,
   (c5_create_requires_no_entry c5_db_empty ("U") (fun _ => 9) (fun _ => true) (fun _ => true)).2
      (by decide) rfl (by decide)⟩

/-- The judged-names query reads only the submission key of each judgement
row: rewriting every validity flag leaves its result unchanged. -/
theorem judged_names_map_valid (subs : List Submission) (js : List Judgement)
    (g : Judgement → Bool) (tm : String) :
    ((js.map (fun j => { j with valid := g j })).filter (fun j =>
        subs.any (fun s => j.submission_id == s.message_id && s.team == tm))).map
      (fun j => j.challenge_name)
      = (js.filter (fun j =>
          subs.any (fun s => j.submission_id == s.message_id && s.team == tm))).map
        (fun j => j.challenge_name) := by
  induction js with
  | nil => rfl
  | cons j rest ih =>
    simp only [List.map_cons, List.filter_cons]
    cases hp : subs.any (fun s => j.submission_id == s.message_id && s.team == tm) <;>
      simp [hp, ih]

/-- C3 (amended): for a registered submitter, the challenge-selection
prompt lists exactly the catalog challenges whose name does not occur as
the stored challenge name of any judgement joined to a submission of the
team — regardless of the judgement's validity flag (rewriting every `valid`
flag changes nothing).  A challenge judged only through sentinel outcomes
is still listed, because sentinel judgements store the sentinel name; but a
judgement row carrying a catalog name excludes that challenge even when its
`valid` flag is false. -/
theorem c3_prompt_excludes_by_name (db : Db) (uid : Int) (tm : String)
    (hteam : user_team db uid = some tm) (c : Challenge) :
    (c ∈ remaining_challenges db uid ↔
      c ∈ db.challenges ∧
        ¬∃ j ∈ db.judgement, j.challenge_name = c.name ∧
          ∃ s ∈ db.submissions, j.submission_id = s.message_id ∧ s.team = tm)
    ∧ (∀ g : Judgement → Bool,
        remaining_challenges
            { db with judgement := db.judgement.map (fun j => { j with valid := g j }) } uid
          = remaining_challenges db uid) := by
  constructor
  · simp only [remaining_challenges, hteam]
    rw [List.mem_filter]
    apply and_congr_right
    intro _
    simp [judged_names_for_team, List.mem_filter, List.mem_map, List.any_eq_true,
      Bool.and_eq_true, beq_iff_eq]
    aesop
  · intro g
    simp only [remaining_challenges]
    have husers : user_team
        { db with judgement := db.judgement.map (fun j => { j with valid := g j }) } uid
        = user_team db uid := rfl
    rw [husers, hteam]
    have hnames : judged_names_for_team
        { db with judgement := db.judgement.map (fun j => { j with valid := g j }) } tm
        = judged_names_for_team db tm := by
      simp only [judged_names_for_team]
      exact judged_names_map_valid db.submissions db.judgement g tm
    dsimp only
    rw [hnames]

/-- C3 witness: in the fresh state the catalog challenge `c` is listed for
the registered submitter. -/
theorem c3_witness :
    ({ name := "c", short_name := "C" } : Challenge) ∈ remaining_challenges c3_db0 1 :=
  ((c3_prompt_excludes_by_name c3_db0 1 "T" (by decide)
      { name := "c", short_name := "C" }).1).mpr ⟨by decide, by simp [c3_db0]⟩

/-- C4 (amended): after a participant rebinds from `oldT` to `newT`, their
judged valid submission still has its points attributed to the frozen
submission team name: the Scoreboard reports the points under `oldT` (and
nothing under `newT`), and the participant's Score query — which matches
submissions by frozen team name against the live team name — returns no
rows for them. -/
theorem c4_frozen_attribution (uid sid pts : Int) (oldT newT cname : String)
    (h : (oldT == newT) = false) :
    scoreboard (rebind_db uid sid pts oldT newT cname) = [(some oldT, pts)]
    ∧ participant_score_rows (rebind_db uid sid pts oldT newT cname) uid = [] := by
  constructor
  · simp [scoreboard, scoreboard_rows, jsu_rows, js_rows, left_join, rebind_db, h,
      List.filter, List.dedup_cons_of_not_mem]
  · simp [participant_score_rows, jsu_rows, js_rows, left_join, rebind_db, h, List.filter]

/-- C4 witness: the frozen attribution evaluated at the concrete rebind
from team `A` to team `B`. -/
theorem c4_witness :
    scoreboard (rebind_db 1 10 1 "A" "B" "c") = [(some ("A"), 1)]
    ∧ participant_score_rows (rebind_db 1 10 1 "A" "B" "c") 1 = [] :=
  c4_frozen_attribution 1 10 1 "A" "B" "c" (by decide)

end SpreeBreak
